import Mathlib

/-!
A shallow embedding of the storage abstraction layer of the dna-platform
repository (src/core/storage.py), together with proofs settling the
specification claims about it.

Exception mapping between the Python classes and the spec taxonomy:
valueError covers ConfigurationError and ValidationError (both are raised as
ValueError in the source), runtimeError covers RemoteWriteError and
LocalWriteError (raised as RuntimeError), fileNotFoundError covers
NotFoundError (raised as FileNotFoundError), and moduleNotFoundError covers
the missing azure client library.

The world a call interacts with (local filesystem, remote container, and the
success or failure of each external effect) is passed explicitly; writers
return the updated world so that partial state left behind by a failed call
is observable.
-/

/-- Python exception values, tagged by class and carrying the message. -/
inductive PyErr where
  | valueError (msg : String)
  | runtimeError (msg : String)
  | fileNotFoundError (msg : String)
  | moduleNotFoundError (msg : String)
deriving DecidableEq

/-- Message carried by an exception. -/
def PyErr.msg : PyErr → String
  | .valueError m => m
  | .runtimeError m => m
  | .fileNotFoundError m => m
  | .moduleNotFoundError m => m

/-- Class test mirroring isinstance with FileNotFoundError. -/
def PyErr.isFileNotFound : PyErr → Bool
  | .fileNotFoundError _ => true
  | _ => false

/-- Class test mirroring isinstance with ValueError. -/
def PyErr.isValueError : PyErr → Bool
  | .valueError _ => true
  | _ => false

/-- Python truthiness of an optional environment value: an absent variable and
the empty string are both falsy. -/
def truthy : Option String → Bool
  | none => false
  | some s => !(s == "")

/-- Embeds the pattern os.getenv(name, default) or default used in storage.py:
the default applies when the variable is absent or empty. -/
def envOr (v : Option String) (d : String) : String :=
  match v with
  | none => d
  | some s => if s == "" then d else s

/-- Embeds str.lower; the storage layer only lowercases ASCII configuration values. -/
def pyLower (s : String) : String := String.mk (s.data.map Char.toLower)

/-- Embeds str.strip applied with the slash character. -/
def stripSlashes (s : String) : String :=
  String.mk (((s.data.dropWhile (fun c => c == '/')).reverse.dropWhile (fun c => c == '/')).reverse)

/-- Code-point comparison of characters, as Python string comparison uses. -/
def charLt (a b : Char) : Bool := decide (a.toNat < b.toNat)

/-- Lexicographic comparison of character lists: the embedding of comparing
two Python strings with the less-than operator. -/
def listLt : List Char → List Char → Bool
  | _, [] => false
  | [], _ :: _ => true
  | a :: as, b :: bs => if charLt a b then true else if charLt b a then false else listLt as bs

/-- Python string comparison, strictly-less. -/
def strLt (s t : String) : Bool := listLt s.data t.data

/-- Embeds Python max over a nonempty list of strings, given as head and tail:
the running maximum is replaced only by a strictly greater element. -/
def pyMax1 (x : String) (xs : List String) : String :=
  xs.foldl (fun a b => if strLt a b then b else a) x

/-- First list is a leading segment of the second. -/
def listLeads : List Char → List Char → Bool
  | [], _ => true
  | _ :: _, [] => false
  | a :: as, b :: bs => a == b && listLeads as bs

/-- Embeds Python str.startswith. -/
def pyStartsWith (s p : String) : Bool := listLeads p.data s.data

/-- Embeds Python str.endswith. -/
def pyEndsWith (s p : String) : Bool := listLeads p.data.reverse s.data.reverse

/-- Numeric value of a decimal digit character, none for any other character. -/
def digitVal (c : Char) : Option Nat :=
  if 48 ≤ c.toNat ∧ c.toNat ≤ 57 then some (c.toNat - 48) else none

/-- Accumulating decimal reader over a character list. -/
def digitsToNatAux : List Char → Nat → Option Nat
  | [], acc => some acc
  | c :: cs, acc =>
    match digitVal c with
    | some d => digitsToNatAux cs (10 * acc + d)
    | none => none

/-- Reads a nonempty all-digit character list as a natural number. -/
def digitsToNat : List Char → Option Nat
  | [] => none
  | l => digitsToNatAux l 0

/-- Embeds Python int applied to a string: an optional sign followed by
decimal digits, anything else raising (returning none here). -/
def pyToInt (s : String) : Option Int :=
  match s.data with
  | '-' :: rest => (digitsToNat rest).map (fun n => -(n : Int))
  | '+' :: rest => (digitsToNat rest).map (fun n => (n : Int))
  | l => (digitsToNat l).map (fun n => (n : Int))

/-- An in-memory table: the embedding keeps the ordered row payloads, which is
what the storage layer moves around without inspecting. -/
structure DataFrame where
  rows : List (List Int)
deriving DecidableEq

/-- Row count, embedding len over the polars frame. -/
def DataFrame.len (df : DataFrame) : Nat := df.rows.length

/-- Embeds polars DataFrame.limit: the first n rows. -/
def DataFrame.limit (df : DataFrame) (n : Nat) : DataFrame := ⟨df.rows.take n⟩

/-- Embeds polars DataFrame.is_empty. -/
def DataFrame.is_empty (df : DataFrame) : Bool := df.rows.isEmpty

/-- The process environment variables read by storage.py. -/
structure Env where
  storageBackend : Option String
  adlsAccountName : Option String
  adlsAccountKey : Option String
  adlsContainer : Option String
  adlsBasePath : Option String
  adlsFallbackToLocal : Option String
  disableLocalSample : Option String
  dualWriteSampleSize : Option String
deriving DecidableEq

/-- Modelled from the spec: the fixed data-root DATA_DIR is imported from
src/core/paths.py, a module absent from the source tree; the spec says only
that the local resolver joins "a fixed data-root" with layer and filename. -/
def DATA_DIR : String := "data"

/-- Local filesystem state: the directories that exist and the
(directory, filename, content) objects present. -/
structure LocalFS where
  dirs : List String
  files : List (String × String × DataFrame)
deriving DecidableEq

/-- Remote container state: the (directory, filename, content) objects present. -/
structure RemoteFS where
  files : List (String × String × DataFrame)
deriving DecidableEq

/-- The external world a storage call interacts with: both stores plus oracles
describing which external effects succeed (upload reachability, client
construction, listing, client library availability, and which local paths
fail to write or to read). -/
structure World where
  lfs : LocalFS
  rfs : RemoteFS
  remoteUploadOk : Bool
  remoteConnectOk : Bool
  remoteListOk : Bool
  azureModuleAvailable : Bool
  localWriteFailPaths : List String
  localReadFailPaths : List String
deriving DecidableEq

/-- Embeds get_storage_backend from storage.py. -/
def get_storage_backend (env : Env) : Except PyErr String :=
  let backend := pyLower (envOr env.storageBackend "local")
  if backend = "local" ∨ backend = "adls" then .ok backend
  else .error (.valueError ("Unsupported STORAGE_BACKEND: " ++ backend ++ ". Must be local or adls"))

/-- Embeds is_adls_configured from storage.py: no required variable may be
missing, where a present-but-empty variable counts as missing. -/
def is_adls_configured (env : Env) : Bool :=
  truthy env.adlsAccountName && truthy env.adlsAccountKey && truthy env.adlsContainer

/-- Embeds the private _adls_base_path helper. -/
def _adls_base_path (env : Env) : String :=
  stripSlashes (envOr env.adlsBasePath "dna-platform/data")

/-- Embeds get_adls_base_path. -/
def get_adls_base_path (env : Env) : String := _adls_base_path env

/-- Embeds resolve_path from storage.py. -/
def resolve_path (env : Env) (layer filename : String) : Except PyErr String :=
  if layer = "" then .error (.valueError ("Layer must be a non-empty string, got: " ++ layer))
  else if filename = "" then .error (.valueError ("Filename must be a non-empty string, got: " ++ filename))
  else match get_storage_backend env with
  | .error e => .error e
  | .ok backend =>
    if backend = "local" then .ok (DATA_DIR ++ "/" ++ layer ++ "/" ++ filename)
    else if backend = "adls" then
      if truthy env.adlsAccountName && truthy env.adlsContainer then
        .ok ("abfss://" ++ (env.adlsContainer.getD "") ++ "@" ++ (env.adlsAccountName.getD "")
          ++ ".dfs.core.windows.net/" ++ _adls_base_path env ++ "/" ++ layer ++ "/" ++ filename)
      else .error (.valueError "ADLS_ACCOUNT_NAME and ADLS_CONTAINER are required for ADLS storage. Please configure ADLS credentials or switch to local storage.")
    else .error (.valueError ("Unsupported backend: " ++ backend))

/-- Directory inside the remote store that an upload of (layer, filename)
lands in: the dirname of the path component of the uri that resolve_path
produced, mirroring the urlparse, lstrip and dirname steps of
write_azure_data_lake (under a local nominal backend the uri is the local
path, so its dirname is the local layer directory). -/
def adlsTargetDir (env : Env) (layer : String) : String :=
  match get_storage_backend env with
  | .ok backend =>
    if backend = "adls" then _adls_base_path env ++ "/" ++ layer else DATA_DIR ++ "/" ++ layer
  | .error _ => DATA_DIR ++ "/" ++ layer

/-- Embeds write_azure_data_lake from storage.py. On success the serialized
table is stored in the remote container; every failure leaves the world
unchanged. -/
def write_azure_data_lake (env : Env) (w : World) (odf : Option DataFrame)
    (layer filename : String) : Except PyErr String × World :=
  match odf with
  | none => (.error (.valueError "DataFrame cannot be None"), w)
  | some df =>
    match resolve_path env layer filename with
    | .error e => (.error e, w)
    | .ok output_uri =>
      if truthy env.adlsAccountName && truthy env.adlsAccountKey && truthy env.adlsContainer then
        if w.azureModuleAvailable then
          if w.remoteUploadOk then
            (.ok output_uri, { w with rfs := ⟨(adlsTargetDir env layer, filename, df) :: w.rfs.files⟩ })
          else (.error (.runtimeError ("ADLS upload failed: " ++ output_uri)), w)
        else (.error (.moduleNotFoundError "azure-storage-filedatalake not installed. Install with: pip install azure-storage-filedatalake"), w)
      else (.error (.valueError "ADLS credentials not configured. Required: ADLS_ACCOUNT_NAME, ADLS_ACCOUNT_KEY, ADLS_CONTAINER"), w)

/-- Embeds the private _write_parquet_local_fallback: a plain local parquet
write, creating the layer directory. -/
def _write_parquet_local_fallback (w : World) (odf : Option DataFrame)
    (layer filename : String) : Except PyErr String × World :=
  match odf with
  | none => (.error (.valueError "DataFrame cannot be None"), w)
  | some df =>
    let dir := DATA_DIR ++ "/" ++ layer
    let output_path := dir ++ "/" ++ filename
    if output_path ∈ w.localWriteFailPaths then
      (.error (.runtimeError ("Local storage write failed: " ++ output_path)), w)
    else
      (.ok output_path, { w with lfs := ⟨dir :: w.lfs.dirs, (dir, filename, df) :: w.lfs.files⟩ })

/-- Embeds the ADLS_FALLBACK_TO_LOCAL flag parse in write_parquet. -/
def adlsFallbackEnabled (env : Env) : Bool :=
  pyLower (envOr env.adlsFallbackToLocal "false") == "true"

/-- Embeds the DISABLE_LOCAL_SAMPLE flag parse in write_parquet. -/
def disableLocalSampleFlag (env : Env) : Bool :=
  pyLower (envOr env.disableLocalSample "false") == "true"

/-- Embeds the sample-size computation in write_parquet: DUAL_WRITE_SAMPLE_SIZE
parsed as int and clamped to the row count; a parse failure or a negative
value falls back to the default of 50 without clamping, exactly as the
exception handler in the source does. -/
def sampleRows (env : Env) (df : DataFrame) : Nat :=
  match pyToInt (envOr env.dualWriteSampleSize "50") with
  | some n => if n < 0 then 50 else min n.toNat df.len
  | none => 50

/-- Embeds the sample-write block of write_parquet: best effort, every failure
swallowed. -/
def samplePhase (env : Env) (w : World) (df : DataFrame) (layer filename : String) : World :=
  if disableLocalSampleFlag env then w
  else (_write_parquet_local_fallback w (some (df.limit (sampleRows env df))) layer ("sample_" ++ filename)).2

/-- Embeds the remote-first step of write_parquet: the ADLS write is attempted
when the nominal backend is adls or the credentials are complete; a failure
downgrades to none when fallback is enabled and aborts the write otherwise. -/
def adlsPhase (env : Env) (w : World) (df : DataFrame) (backend layer filename : String) :
    Except PyErr (Option String) × World :=
  if backend == "adls" || is_adls_configured env then
    match write_azure_data_lake env w (some df) layer filename with
    | (.ok p, w1) => (.ok (some p), w1)
    | (.error e, w1) =>
      if adlsFallbackEnabled env then (.ok none, w1)
      else (.error (.runtimeError ("ADLS write failed (fallback disabled): " ++ e.msg)), w1)
  else (.ok none, w)

/-- Embeds write_parquet from storage.py: the dual-write protocol of remote
attempt, local sample, then mirror or local primary. -/
def write_parquet (env : Env) (w : World) (odf : Option DataFrame)
    (layer filename : String) : Except PyErr String × World :=
  match odf with
  | none => (.error (.valueError "DataFrame cannot be None"), w)
  | some df =>
    if layer = "" ∨ filename = "" then
      (.error (.valueError "Layer and filename must be non-empty strings"), w)
    else match get_storage_backend env with
    | .error e => (.error e, w)
    | .ok backend =>
      match adlsPhase env w df backend layer filename with
      | (.error e, w1) => (.error e, w1)
      | (.ok adls_path, w1) =>
        let w2 := samplePhase env w1 df layer filename
        match adls_path with
        | some p =>
          let w3 := if adlsFallbackEnabled env then
              (_write_parquet_local_fallback w2 (some df) layer filename).2
            else w2
          (.ok p, w3)
        | none =>
          match _write_parquet_local_fallback w2 (some df) layer filename with
          | (.ok path, w3) => (.ok path, w3)
          | (.error e, w3) =>
            (.error (.runtimeError ("Storage write failed for " ++ layer ++ "/" ++ filename ++ ": " ++ e.msg)), w3)

/-- The (filename, content) pairs sitting in the local layer directory:
the embedding of the os.listdir scan in _read_latest_local. -/
def localEntries (w : World) (layer : String) : List (String × DataFrame) :=
  (w.lfs.files.filter (fun f => f.1 == DATA_DIR ++ "/" ++ layer)).map (fun f => f.2)

/-- The local candidate filenames: names in the layer directory that start
with the requested string and carry the parquet extension. -/
def localCandidates (w : World) (layer pfx : String) : List String :=
  ((localEntries w layer).map (fun e => e.1)).filter
    (fun n => pyStartsWith n pfx && pyEndsWith n ".parquet")

/-- Embeds the private _read_latest_local from storage.py. -/
def _read_latest_local (w : World) (layer pfx : String) : Except PyErr DataFrame :=
  let directory := DATA_DIR ++ "/" ++ layer
  if directory ∈ w.lfs.dirs then
    let entries := localEntries w layer
    let candidates := localCandidates w layer pfx
    match candidates with
    | [] => .error (.fileNotFoundError ("No parquet files found in " ++ directory ++ " with prefix " ++ pfx))
    | c :: cs =>
      let latest := pyMax1 c cs
      let file_path := directory ++ "/" ++ latest
      if file_path ∈ w.localReadFailPaths then
        .error (.runtimeError ("Local storage read failed: " ++ file_path))
      else
        match entries.find? (fun e => e.1 == latest) with
        | some e => .ok e.2
        | none => .error (.runtimeError ("Local storage read failed: " ++ file_path))
  else .error (.fileNotFoundError ("Data directory does not exist: " ++ directory))

/-- The remote candidate full paths: listed objects of the remote layer
directory whose basename starts with the requested string and carries the
parquet extension; the source collects the full path but filters on the
basename, then maximizes over full paths. -/
def adlsCandidates (env : Env) (w : World) (layer pfx : String) : List String :=
  let dirPath := stripSlashes (_adls_base_path env ++ "/" ++ layer)
  (w.rfs.files.filter
      (fun f => f.1 == dirPath && pyStartsWith f.2.1 pfx && pyEndsWith f.2.1 ".parquet")).map
    (fun f => f.1 ++ "/" ++ f.2.1)

/-- Embeds the adls branch of read_parquet_latest. In the source every remote
failure mode, including the FileNotFoundError raised on an empty remote
listing, is caught by the surrounding handler and downgrades to the local
read, which is what each non-ok branch here does. -/
def readLatestAdls (env : Env) (w : World) (layer pfx : String) : Except PyErr DataFrame :=
  if truthy env.adlsAccountName && truthy env.adlsAccountKey && truthy env.adlsContainer then
    if w.azureModuleAvailable then
      if w.remoteConnectOk then
        if w.remoteListOk then
          let cands := adlsCandidates env w layer pfx
          match cands with
          | [] => _read_latest_local w layer pfx
          | c :: cs =>
            let latest := pyMax1 c cs
            match w.rfs.files.find? (fun f => (f.1 ++ "/" ++ f.2.1) == latest) with
            | some f => .ok f.2.2
            | none => _read_latest_local w layer pfx
        else _read_latest_local w layer pfx
      else _read_latest_local w layer pfx
    else _read_latest_local w layer pfx
  else _read_latest_local w layer pfx

/-- Embeds the final exception handler of read_parquet_latest: ValueError and
FileNotFoundError pass through unchanged, anything else is wrapped into a
RuntimeError. -/
def wrapRead (r : Except PyErr DataFrame) : Except PyErr DataFrame :=
  match r with
  | .ok df => .ok df
  | .error e =>
    if e.isFileNotFound || e.isValueError then .error e
    else .error (.runtimeError ("Storage read failed: " ++ e.msg))

/-- Embeds read_parquet_latest from storage.py. -/
def read_parquet_latest (env : Env) (w : World) (layer pfx : String) : Except PyErr DataFrame :=
  if layer = "" then .error (.valueError ("Layer must be a non-empty string, got: " ++ layer))
  else if pfx = "" then .error (.valueError ("Prefix must be a non-empty string, got: " ++ pfx))
  else match get_storage_backend env with
  | .error e => .error e
  | .ok backend =>
    if backend = "local" then wrapRead (_read_latest_local w layer pfx)
    else if backend = "adls" then wrapRead (readLatestAdls env w layer pfx)
    else wrapRead (.error (.valueError ("Unsupported backend: " ++ backend)))

/-- A decimal digit as a character. -/
def digitChar : Nat → Char
  | 0 => '0'
  | 1 => '1'
  | 2 => '2'
  | 3 => '3'
  | 4 => '4'
  | 5 => '5'
  | 6 => '6'
  | 7 => '7'
  | 8 => '8'
  | _ => '9'

/-- Zero-padded fixed-width decimal rendering, most significant digit first:
the embedding of the zero-padded fields of the strftime format the pipeline
stages use when naming their output files. -/
def padDigits : Nat → Nat → List Char
  | 0, _ => []
  | w + 1, n => digitChar (n / 10 ^ w) :: padDigits w (n % 10 ^ w)

/-- A UTC wall-clock timestamp at second precision. -/
structure UtcTimestamp where
  year : Nat
  month : Nat
  day : Nat
  hour : Nat
  minute : Nat
  second : Nat
deriving DecidableEq

/-- A well-formed calendar timestamp with a four-digit year. -/
def UtcTimestamp.wf (t : UtcTimestamp) : Prop :=
  t.year < 10000 ∧ 1 ≤ t.month ∧ t.month ≤ 12 ∧ 1 ≤ t.day ∧ t.day ≤ 31
    ∧ t.hour < 24 ∧ t.minute < 60 ∧ t.second < 60

instance (t : UtcTimestamp) : Decidable t.wf := by
  unfold UtcTimestamp.wf
  infer_instance

/-- Chronological order of timestamps: lexicographic over the calendar fields. -/
def UtcTimestamp.chronLt (a b : UtcTimestamp) : Bool :=
  if a.year ≠ b.year then decide (a.year < b.year)
  else if a.month ≠ b.month then decide (a.month < b.month)
  else if a.day ≠ b.day then decide (a.day < b.day)
  else if a.hour ≠ b.hour then decide (a.hour < b.hour)
  else if a.minute ≠ b.minute then decide (a.minute < b.minute)
  else decide (a.second < b.second)

/-- Embeds the strftime rendering every pipeline stage applies when naming its
output file (four-digit year and two-digit fields, separated by T and closed
by Z, as in 20240101T000000Z). -/
def formatTimestamp (t : UtcTimestamp) : String :=
  String.mk (padDigits 4 t.year ++ (padDigits 2 t.month ++ (padDigits 2 t.day
    ++ ('T' :: (padDigits 2 t.hour ++ (padDigits 2 t.minute ++ (padDigits 2 t.second ++ ['Z'])))))))

/-- The filename a pipeline stage writes at a given timestamp: the dataset
naming convention of the repository. -/
def stageFilename (pfx : String) (t : UtcTimestamp) : String :=
  pfx ++ formatTimestamp t ++ ".parquet"

/-- Applies a sequence of timestamped writes through write_parquet, threading
the world. -/
def runWrites (env : Env) (layer pfx : String) (w : World) :
    List (UtcTimestamp × DataFrame) → World
  | [] => w
  | (t, df) :: rest =>
    runWrites env layer pfx (write_parquet env w (some df) layer (stageFilename pfx t)).2 rest

/-- The same environment with the nominal backend forced to local. -/
def withLocalBackend (env : Env) : Env := { env with storageBackend := some "local" }

/-- A world with empty stores, all effects succeeding. -/
def cleanWorld : World := ⟨⟨[], []⟩, ⟨[]⟩, true, true, true, true, [], []⟩

/-- A three-row table used by the concrete scenarios. -/
def dfA : DataFrame := ⟨[[1], [2], [3]]⟩

/-- A one-row table used by the concrete scenarios. -/
def dfB : DataFrame := ⟨[[9]]⟩

/-- Nominal local backend with complete remote credentials. -/
def envLocalCreds : Env :=
  ⟨some "local", some "acct", some "key", some "cont", none, none, none, none⟩

/-- Nominal remote backend with complete credentials and defaults otherwise. -/
def envAdls : Env :=
  ⟨some "adls", some "acct", some "key", some "cont", none, none, none, none⟩

/-- Nominal remote backend with the account key missing. -/
def envAdlsNoKey : Env :=
  ⟨some "adls", some "acct", none, some "cont", none, none, none, none⟩

/-- Nominal remote backend with fallback-to-local enabled. -/
def envAdlsFb : Env :=
  ⟨some "adls", some "acct", some "key", some "cont", none, some "true", none, none⟩

/-- Local backend with the bounded sample write disabled. -/
def envChron : Env :=
  ⟨some "local", none, none, none, none, none, some "true", none⟩

/-- Local backend with a sample row cap of two. -/
def envSample : Env :=
  ⟨some "local", none, none, none, none, none, none, some "2"⟩

/-- A world whose only object lives in the remote container. -/
def wRemoteOnly : World :=
  ⟨⟨[], []⟩, ⟨[("dna-platform/data/bronze", "x_20240101T000000Z.parquet", dfA)]⟩,
    true, true, true, true, [], []⟩

/-- A world whose only object lives in the local bronze directory, with the
remote container empty and reachable. -/
def wLocalX : World :=
  ⟨⟨["data/bronze"], [("data/bronze", "x_20240101T000000Z.parquet", dfA)]⟩, ⟨[]⟩,
    true, true, true, true, [], []⟩

/-- A world with an existing but empty local bronze directory. -/
def wEmptyDir : World :=
  ⟨⟨["data/bronze"], []⟩, ⟨[]⟩, true, true, true, true, [], []⟩

/-- An otherwise clean world whose remote upload fails. -/
def wUploadFail : World := ⟨⟨[], []⟩, ⟨[]⟩, false, true, true, true, [], []⟩

/-- An otherwise clean world where the azure client library is missing. -/
def wNoModule : World := ⟨⟨[], []⟩, ⟨[]⟩, true, true, true, false, [], []⟩

/-- New year midnight 2024, and the following midnight. -/
def ts1 : UtcTimestamp := ⟨2024, 1, 1, 0, 0, 0⟩

/-- The day after ts1. -/
def ts2 : UtcTimestamp := ⟨2024, 1, 2, 0, 0, 0⟩

theorem str_ext {s t : String} (h : s.data = t.data) : s = t := by
  cases s
  cases t
  exact congrArg String.mk h

theorem charLt_irrefl (a : Char) : charLt a a = false := by
  simp [charLt]

theorem charLt_asymm {a b : Char} (h : charLt a b = true) : charLt b a = false := by
  simp [charLt, Char.toNat] at h ⊢
  omega

theorem charLt_trans {a b c : Char} (h1 : charLt a b = true) (h2 : charLt b c = true) :
    charLt a c = true := by
  simp [charLt, Char.toNat] at h1 h2 ⊢
  omega

theorem charLt_eq {a b : Char} (h1 : charLt a b = false) (h2 : charLt b a = false) : a = b := by
  simp [charLt, Char.toNat] at h1 h2
  exact Char.ext (UInt32.toNat.inj (by omega))

theorem listLt_asymm {x y : List Char} (h : listLt x y = true) : listLt y x = false := by
  induction x generalizing y with
  | nil =>
    cases y with
    | nil => simp [listLt] at h
    | cons b bs => simp [listLt]
  | cons a as ih =>
    cases y with
    | nil => simp [listLt] at h
    | cons b bs =>
      simp only [listLt] at h ⊢
      cases hab : charLt a b with
      | true => simp [charLt_asymm hab, hab]
      | false =>
        cases hba : charLt b a with
        | true => simp [hab, hba] at h
        | false =>
          simp [hab, hba] at h ⊢
          exact ih h

theorem listLt_trans {x y z : List Char} (h1 : listLt x y = true) (h2 : listLt y z = true) :
    listLt x z = true := by
  induction x generalizing y z with
  | nil =>
    cases z with
    | nil =>
      cases y with
      | nil => simp [listLt] at h1
      | cons b bs => simp [listLt] at h2
    | cons c cs => simp [listLt]
  | cons a as ih =>
    cases y with
    | nil => simp [listLt] at h1
    | cons b bs =>
      cases z with
      | nil => simp [listLt] at h2
      | cons c cs =>
        simp only [listLt] at h1 h2 ⊢
        cases hab : charLt a b with
        | true =>
          cases hbc : charLt b c with
          | true => simp [charLt_trans hab hbc]
          | false =>
            cases hcb : charLt c b with
            | true => simp [hab, hbc, hcb] at h2
            | false =>
              have hbceq : b = c := charLt_eq hbc hcb
              subst hbceq
              simp [hab]
        | false =>
          cases hba : charLt b a with
          | true => simp [hab, hba] at h1
          | false =>
            have habeq : a = b := charLt_eq hab hba
            subst habeq
            simp only [hab, if_neg, Bool.false_eq_true, if_false] at h1
            cases hac : charLt a c with
            | true => simp [hac]
            | false =>
              cases hca : charLt c a with
              | true => simp [hac, hca] at h2
              | false =>
                simp [hac, hca] at h2 ⊢
                exact ih h1 h2

theorem listLt_eq_of_not {x y : List Char} (h1 : listLt x y = false) (h2 : listLt y x = false) :
    x = y := by
  induction x generalizing y with
  | nil =>
    cases y with
    | nil => rfl
    | cons b bs => simp [listLt] at h1
  | cons a as ih =>
    cases y with
    | nil => simp [listLt] at h2
    | cons b bs =>
      simp only [listLt] at h1 h2
      cases hab : charLt a b with
      | true => simp [hab] at h1
      | false =>
        cases hba : charLt b a with
        | true => simp [hab, hba] at h2  -- wait order in h2 is charLt b a first
        | false =>
          simp [hab, hba] at h1 h2
          rw [charLt_eq hab hba, ih h1 h2]

theorem strLt_asymm {s t : String} (h : strLt s t = true) : strLt t s = false :=
  listLt_asymm h

theorem strLt_trans {s t u : String} (h1 : strLt s t = true) (h2 : strLt t u = true) :
    strLt s u = true :=
  listLt_trans h1 h2

theorem strLt_eq_of_not {s t : String} (h1 : strLt s t = false) (h2 : strLt t s = false) :
    s = t :=
  str_ext (listLt_eq_of_not h1 h2)

theorem pyMax1_of_ub {x : String} {xs : List String} (h : ∀ y ∈ xs, strLt y x = true) :
    pyMax1 x xs = x := by
  induction xs with
  | nil => rfl
  | cons b bs ih =>
    have hb : strLt b x = true := h b (List.mem_cons_self b bs)
    have hxb : strLt x b = false := strLt_asymm hb
    have hstep : pyMax1 x (b :: bs) = pyMax1 x bs := by
      simp [pyMax1, hxb]
    rw [hstep]
    exact ih (fun y hy => h y (List.mem_cons_of_mem b hy))

theorem pyMax1_spec : ∀ (xs : List String) (x : String),
    pyMax1 x xs ∈ x :: xs ∧
      ∀ y ∈ x :: xs, y = pyMax1 x xs ∨ strLt y (pyMax1 x xs) = true := by
  intro xs
  induction xs with
  | nil =>
    intro x
    refine ⟨by simp [pyMax1], ?_⟩
    intro y hy
    left
    simpa [pyMax1] using hy
  | cons b bs ih =>
    intro x
    have hstep : pyMax1 x (b :: bs) = pyMax1 (if strLt x b = true then b else x) bs := by
      simp [pyMax1]
    obtain ⟨ihm, ihu⟩ := ih (if strLt x b = true then b else x)
    constructor
    · rw [hstep]
      rcases List.mem_cons.mp ihm with h | h
      · rw [h]
        cases hxb : strLt x b with
        | true => simp [hxb]
        | false => simp [hxb]
      · simp [h]
    · intro y hy
      rw [hstep]
      have happly : y = (if strLt x b = true then b else x) ∨
          strLt y (if strLt x b = true then b else x) = true ∨ y ∈ bs →
          y = pyMax1 (if strLt x b = true then b else x) bs ∨
            strLt y (pyMax1 (if strLt x b = true then b else x) bs) = true := by
        intro hz
        rcases hz with hz | hz | hz
        · rw [hz]
          exact ihu _ (List.mem_cons_self _ _)
        · rcases ihu _ (List.mem_cons_self _ _) with hm | hm
          · rw [← hm]
            right
            exact hz
          · right
            exact strLt_trans hz hm
        · exact ihu y (List.mem_cons_of_mem _ hz)
      apply happly
      rcases List.mem_cons.mp hy with h | h
      · cases hxb : strLt x b with
        | true =>
          right; left
          rw [h]
          simpa using hxb
        | false =>
          left
          rw [h]
          simp
      · rcases List.mem_cons.mp h with h2 | h2
        · cases hxb : strLt x b with
          | true =>
            left
            rw [h2]
            simp
          | false =>
            cases hyx : strLt b x with
            | true =>
              right; left
              rw [h2]
              simpa using hyx
            | false =>
              left
              simp only [Bool.false_eq_true, if_false]
              rw [h2]
              exact strLt_eq_of_not hyx hxb
        · right; right
          exact h2

theorem listLeads_append (p r : List Char) : listLeads p (p ++ r) = true := by
  induction p with
  | nil => rfl
  | cons a as ih => simp [listLeads, ih]

theorem pyStartsWith_append (p r : String) : pyStartsWith (p ++ r) p = true :=
  listLeads_append p.data r.data

theorem pyEndsWith_append (x s : String) : pyEndsWith (x ++ s) s = true := by
  show listLeads s.data.reverse (x.data ++ s.data).reverse = true
  rw [List.reverse_append]
  exact listLeads_append _ _

theorem str_ne_empty {s : String} (h : s.data ≠ []) : s ≠ "" := by
  intro he
  exact h (by rw [he])

theorem append_str_ne_empty (x s : String) (h : s.data ≠ []) : x ++ s ≠ "" := by
  apply str_ne_empty
  show x.data ++ s.data ≠ []
  intro hcon
  exact h (List.append_eq_nil.mp hcon).2

theorem stageFilename_ne_empty (pfx : String) (t : UtcTimestamp) :
    stageFilename pfx t ≠ "" := by
  apply append_str_ne_empty
  decide

theorem listLt_cons_same {c : Char} {xs ys : List Char} (h : listLt xs ys = true) :
    listLt (c :: xs) (c :: ys) = true := by
  simp [listLt, charLt_irrefl, h]

theorem listLt_append_right {xs ys : List Char} (p : List Char) (h : listLt xs ys = true) :
    listLt (p ++ xs) (p ++ ys) = true := by
  induction p with
  | nil => simpa
  | cons a as ih => simpa [List.cons_append] using listLt_cons_same ih

theorem listLt_append_left {xs ys : List Char} (u v : List Char)
    (hlen : xs.length = ys.length) (h : listLt xs ys = true) :
    listLt (xs ++ u) (ys ++ v) = true := by
  induction xs generalizing ys with
  | nil =>
    cases ys with
    | nil => simp [listLt] at h
    | cons b bs => simp at hlen
  | cons a as ih =>
    cases ys with
    | nil => simp at hlen
    | cons b bs =>
      simp only [List.cons_append, listLt] at h ⊢
      cases hab : charLt a b with
      | true => simp [hab]
      | false =>
        cases hba : charLt b a with
        | true => simp [hab, hba] at h
        | false =>
          simp only [hab, hba, Bool.false_eq_true, if_false] at h ⊢
          exact ih (by simpa using hlen) h

theorem padDigits_length (w n : Nat) : (padDigits w n).length = w := by
  induction w generalizing n with
  | zero => rfl
  | succ k ih => simp [padDigits, ih]

theorem digitChar_lt {a b : Nat} (h : a < b) (hb : b ≤ 9) :
    charLt (digitChar a) (digitChar b) = true := by
  interval_cases b <;> interval_cases a <;> rfl

theorem padDigits_mono {w a b : Nat} (h : a < b) (hb : b < 10 ^ w) :
    listLt (padDigits w a) (padDigits w b) = true := by
  induction w generalizing a b with
  | zero =>
    rw [pow_zero] at hb
    omega
  | succ k ih =>
    have hpos : 0 < 10 ^ k := Nat.pos_pow_of_pos k (by omega)
    have hble : a / 10 ^ k ≤ b / 10 ^ k := Nat.div_le_div_right (Nat.le_of_lt h)
    have hdb : b / 10 ^ k ≤ 9 := by
      have h10 : b < 10 * 10 ^ k := by
        rw [pow_succ] at hb
        omega
      have := (Nat.div_lt_iff_lt_mul hpos).mpr (by omega : b < 10 * 10 ^ k)
      omega
    rcases Nat.lt_or_ge (a / 10 ^ k) (b / 10 ^ k) with hlt | hge
    · simp [padDigits, listLt, digitChar_lt hlt hdb]
    · have heq : a / 10 ^ k = b / 10 ^ k := Nat.le_antisymm hble hge
      have hmoda := Nat.div_add_mod a (10 ^ k)
      have hmodb := Nat.div_add_mod b (10 ^ k)
      rw [heq] at hmoda
      have hmod : a % 10 ^ k < b % 10 ^ k := by omega
      have hmb : b % 10 ^ k < 10 ^ k := Nat.mod_lt _ hpos
      simp only [padDigits, heq, listLt, charLt_irrefl, Bool.false_eq_true, if_false]
      exact ih hmod hmb

theorem formatTimestamp_mono {a b : UtcTimestamp} (ha : a.wf) (hb : b.wf)
    (h : a.chronLt b = true) :
    strLt (formatTimestamp a) (formatTimestamp b) = true := by
  obtain ⟨-, -, ham2, -, had2, hah, hami, has⟩ := ha
  obtain ⟨hby, -, hbm2, -, hbd2, hbh, hbmi, hbs⟩ := hb
  have e2 : (10 : Nat) ^ 2 = 100 := by norm_num
  have e4 : (10 : Nat) ^ 4 = 10000 := by norm_num
  have len2 : ∀ n m : Nat, (padDigits 2 n).length = (padDigits 2 m).length := by
    intro n m
    rw [padDigits_length, padDigits_length]
  unfold UtcTimestamp.chronLt at h
  show listLt
    (padDigits 4 a.year ++ (padDigits 2 a.month ++ (padDigits 2 a.day ++
      ('T' :: (padDigits 2 a.hour ++ (padDigits 2 a.minute ++ (padDigits 2 a.second ++ ['Z'])))))))
    (padDigits 4 b.year ++ (padDigits 2 b.month ++ (padDigits 2 b.day ++
      ('T' :: (padDigits 2 b.hour ++ (padDigits 2 b.minute ++ (padDigits 2 b.second ++ ['Z']))))))) = true
  by_cases hy : a.year = b.year
  · rw [hy]
    apply listLt_append_right
    rw [if_neg (fun hc => hc hy)] at h
    by_cases hm : a.month = b.month
    · rw [hm]
      apply listLt_append_right
      rw [if_neg (fun hc => hc hm)] at h
      by_cases hd : a.day = b.day
      · rw [hd]
        apply listLt_append_right
        rw [if_neg (fun hc => hc hd)] at h
        apply listLt_cons_same
        by_cases hh : a.hour = b.hour
        · rw [hh]
          apply listLt_append_right
          rw [if_neg (fun hc => hc hh)] at h
          by_cases hmi : a.minute = b.minute
          · rw [hmi]
            apply listLt_append_right
            rw [if_neg (fun hc => hc hmi)] at h
            exact listLt_append_left _ _ (len2 _ _)
              (padDigits_mono (of_decide_eq_true h) (by rw [e2]; omega))
          · rw [if_pos hmi] at h
            exact listLt_append_left _ _ (len2 _ _)
              (padDigits_mono (of_decide_eq_true h) (by rw [e2]; omega))
        · rw [if_pos hh] at h
          exact listLt_append_left _ _ (len2 _ _)
            (padDigits_mono (of_decide_eq_true h) (by rw [e2]; omega))
      · rw [if_pos hd] at h
        exact listLt_append_left _ _ (len2 _ _)
          (padDigits_mono (of_decide_eq_true h) (by rw [e2]; omega))
    · rw [if_pos hm] at h
      exact listLt_append_left _ _ (len2 _ _)
        (padDigits_mono (of_decide_eq_true h) (by rw [e2]; omega))
  · rw [if_pos hy] at h
    exact listLt_append_left _ _ (by rw [padDigits_length, padDigits_length])
      (padDigits_mono (of_decide_eq_true h) (by rw [e4]; omega))

theorem formatTimestamp_length (t : UtcTimestamp) :
    (formatTimestamp t).data.length = 16 := by
  show (padDigits 4 t.year ++ (padDigits 2 t.month ++ (padDigits 2 t.day ++
    ('T' :: (padDigits 2 t.hour ++ (padDigits 2 t.minute ++ (padDigits 2 t.second ++ ['Z']))))))).length = 16
  simp [padDigits_length]

theorem stageFilename_mono {pfx : String} {a b : UtcTimestamp} (ha : a.wf) (hb : b.wf)
    (h : a.chronLt b = true) :
    strLt (stageFilename pfx a) (stageFilename pfx b) = true := by
  show listLt ((pfx.data ++ (formatTimestamp a).data) ++ (String.data ".parquet"))
      ((pfx.data ++ (formatTimestamp b).data) ++ (String.data ".parquet")) = true
  rw [List.append_assoc, List.append_assoc]
  apply listLt_append_right
  exact listLt_append_left _ _
    (by rw [formatTimestamp_length, formatTimestamp_length]) (formatTimestamp_mono ha hb h)

theorem stageFilename_starts (pfx : String) (t : UtcTimestamp) :
    pyStartsWith (stageFilename pfx t) pfx = true := by
  show listLeads pfx.data ((pfx.data ++ (formatTimestamp t).data) ++ (String.data ".parquet")) = true
  rw [List.append_assoc]
  exact listLeads_append _ _

theorem stageFilename_ends (pfx : String) (t : UtcTimestamp) :
    pyEndsWith (stageFilename pfx t) ".parquet" = true :=
  pyEndsWith_append (pfx ++ formatTimestamp t) ".parquet"

theorem write_parquet_local (env : Env) (w : World) (df : DataFrame) (layer filename : String)
    (hb : get_storage_backend env = .ok "local")
    (hcfg : is_adls_configured env = false)
    (hsample : disableLocalSampleFlag env = true)
    (hfail : w.localWriteFailPaths = [])
    (hl : layer ≠ "") (hf : filename ≠ "") :
    write_parquet env w (some df) layer filename =
      (.ok (DATA_DIR ++ "/" ++ layer ++ "/" ++ filename),
        { w with lfs := ⟨(DATA_DIR ++ "/" ++ layer) :: w.lfs.dirs,
            (DATA_DIR ++ "/" ++ layer, filename, df) :: w.lfs.files⟩ }) := by
  simp only [write_parquet, hb, adlsPhase, hcfg, samplePhase, hsample,
    _write_parquet_local_fallback, if_true, if_false]
  simp [hl, hf]
  simp [hfail]

theorem runWrites_world (env : Env) (layer pfx : String)
    (hb : get_storage_backend env = .ok "local")
    (hcfg : is_adls_configured env = false)
    (hsample : disableLocalSampleFlag env = true)
    (hl : layer ≠ "") :
    ∀ (ws : List (UtcTimestamp × DataFrame)) (w : World), w.localWriteFailPaths = [] →
      runWrites env layer pfx w ws =
        { w with lfs := ⟨List.replicate ws.length (DATA_DIR ++ "/" ++ layer) ++ w.lfs.dirs,
            (ws.map (fun e => (DATA_DIR ++ "/" ++ layer, stageFilename pfx e.1, e.2))).reverse
              ++ w.lfs.files⟩ } := by
  intro ws
  induction ws with
  | nil =>
    intro w hfail
    simp [runWrites]
  | cons x rest ih =>
    intro w hfail
    obtain ⟨t, df⟩ := x
    show runWrites env layer pfx (write_parquet env w (some df) layer (stageFilename pfx t)).2 rest = _
    rw [write_parquet_local env w df layer _ hb hcfg hsample hfail hl
      (stageFilename_ne_empty pfx t)]
    rw [ih _ (by rw [← hfail])]
    simp [List.replicate_succ', List.append_assoc]

theorem read_latest_local_run (w : World) (layer pfx : String)
    (l : List (UtcTimestamp × DataFrame)) (tL : UtcTimestamp) (dfL : DataFrame)
    (hfiles : w.lfs.files = ((tL, dfL) :: l).map
      (fun e => (DATA_DIR ++ "/" ++ layer, stageFilename pfx e.1, e.2)))
    (hdir : (DATA_DIR ++ "/" ++ layer) ∈ w.lfs.dirs)
    (hreadok : w.localReadFailPaths = [])
    (hwfL : tL.wf) (hwf : ∀ e ∈ l, UtcTimestamp.wf e.1)
    (hlt : ∀ e ∈ l, UtcTimestamp.chronLt e.1 tL = true) :
    _read_latest_local w layer pfx = .ok dfL := by
  have hent : localEntries w layer = ((tL, dfL) :: l).map (fun e => (stageFilename pfx e.1, e.2)) := by
    unfold localEntries
    rw [hfiles, List.filter_eq_self.mpr ?hall, List.map_map]
    · rfl
    case hall =>
      intro f hf
      obtain ⟨e, -, rfl⟩ := List.mem_map.mp hf
      exact beq_self_eq_true _
  have hcand : localCandidates w layer pfx = ((tL, dfL) :: l).map (fun e => stageFilename pfx e.1) := by
    unfold localCandidates
    rw [hent, List.map_map, List.filter_eq_self.mpr ?hall2]
    · rfl
    case hall2 =>
      intro n hn
      obtain ⟨e, -, rfl⟩ := List.mem_map.mp hn
      simp [stageFilename_starts, stageFilename_ends]
  have hmax : pyMax1 (stageFilename pfx tL) (l.map (fun e => stageFilename pfx e.1))
      = stageFilename pfx tL := by
    apply pyMax1_of_ub
    intro y hy
    obtain ⟨e, he, rfl⟩ := List.mem_map.mp hy
    exact stageFilename_mono (hwf e he) hwfL (hlt e he)
  simp only [_read_latest_local, hcand, hent, List.map_cons, hreadok]
  rw [if_pos hdir]
  simp [hmax, List.find?]

theorem write_azure_fields (env : Env) (w : World) (odf : Option DataFrame)
    (layer filename : String) :
    (write_azure_data_lake env w odf layer filename).2.lfs = w.lfs ∧
      (write_azure_data_lake env w odf layer filename).2.localWriteFailPaths
        = w.localWriteFailPaths ∧
      (write_azure_data_lake env w odf layer filename).2.localReadFailPaths
        = w.localReadFailPaths := by
  unfold write_azure_data_lake
  cases odf with
  | none => exact ⟨rfl, rfl, rfl⟩
  | some df =>
    cases resolve_path env layer filename with
    | error e => exact ⟨rfl, rfl, rfl⟩
    | ok uri =>
      cases truthy env.adlsAccountName && truthy env.adlsAccountKey && truthy env.adlsContainer with
      | false => exact ⟨rfl, rfl, rfl⟩
      | true =>
        cases w.azureModuleAvailable with
        | false => exact ⟨rfl, rfl, rfl⟩
        | true =>
          cases w.remoteUploadOk with
          | false => exact ⟨rfl, rfl, rfl⟩
          | true => exact ⟨rfl, rfl, rfl⟩

theorem write_azure_cases (env : Env) (w : World) (odf : Option DataFrame)
    (layer filename : String) :
    (write_azure_data_lake env w odf layer filename).2 = w ∨
      ∃ uri, (write_azure_data_lake env w odf layer filename).1 = .ok uri := by
  unfold write_azure_data_lake
  cases odf with
  | none => left; rfl
  | some df =>
    cases resolve_path env layer filename with
    | error e2 => left; rfl
    | ok uri =>
      cases truthy env.adlsAccountName && truthy env.adlsAccountKey && truthy env.adlsContainer with
      | false => left; rfl
      | true =>
        cases w.azureModuleAvailable with
        | false => left; rfl
        | true =>
          cases w.remoteUploadOk with
          | false => left; rfl
          | true => right; exact ⟨uri, rfl⟩

theorem write_azure_err_world {env : Env} {w : World} {odf : Option DataFrame}
    {layer filename : String} {e : PyErr}
    (h : (write_azure_data_lake env w odf layer filename).1 = .error e) :
    (write_azure_data_lake env w odf layer filename).2 = w := by
  rcases write_azure_cases env w odf layer filename with h2 | ⟨uri, h2⟩
  · exact h2
  · rw [h] at h2
    exact absurd h2 (by simp)

theorem adlsPhase_fields (env : Env) (w : World) (df : DataFrame)
    (backend layer filename : String) :
    (adlsPhase env w df backend layer filename).2.lfs = w.lfs ∧
      (adlsPhase env w df backend layer filename).2.localWriteFailPaths
        = w.localWriteFailPaths ∧
      (adlsPhase env w df backend layer filename).2.localReadFailPaths
        = w.localReadFailPaths := by
  have h := write_azure_fields env w (some df) layer filename
  unfold adlsPhase
  cases (backend == "adls" || is_adls_configured env) with
  | false => exact ⟨rfl, rfl, rfl⟩
  | true =>
    cases hw : write_azure_data_lake env w (some df) layer filename with
    | mk r w1 =>
      rw [hw] at h
      cases r with
      | ok p => exact h
      | error e =>
        cases adlsFallbackEnabled env with
        | false => exact h
        | true => exact h

theorem wplf_fields (w : World) (odf : Option DataFrame) (layer filename : String) :
    ((_write_parquet_local_fallback w odf layer filename).2.rfs = w.rfs ∧
      (_write_parquet_local_fallback w odf layer filename).2.localWriteFailPaths
        = w.localWriteFailPaths ∧
      (_write_parquet_local_fallback w odf layer filename).2.localReadFailPaths
        = w.localReadFailPaths) ∧
      (_write_parquet_local_fallback w odf layer filename).2.lfs.dirs.length
        ≥ w.lfs.dirs.length := by
  unfold _write_parquet_local_fallback
  cases odf with
  | none => exact ⟨⟨rfl, rfl, rfl⟩, le_refl _⟩
  | some df =>
    dsimp only
    split
    · exact ⟨⟨rfl, rfl, rfl⟩, le_refl _⟩
    · exact ⟨⟨rfl, rfl, rfl⟩, by simp⟩

theorem wplf_files_mono (w : World) (odf : Option DataFrame) (layer filename : String)
    {x : String × String × DataFrame} (hx : x ∈ w.lfs.files) :
    x ∈ (_write_parquet_local_fallback w odf layer filename).2.lfs.files := by
  unfold _write_parquet_local_fallback
  cases odf with
  | none => exact hx
  | some df =>
    dsimp only
    split
    · exact hx
    · exact List.mem_cons_of_mem _ hx

theorem samplePhase_fields (env : Env) (w : World) (df : DataFrame) (layer filename : String) :
    (samplePhase env w df layer filename).rfs = w.rfs ∧
      (samplePhase env w df layer filename).localWriteFailPaths = w.localWriteFailPaths ∧
      (samplePhase env w df layer filename).localReadFailPaths = w.localReadFailPaths := by
  unfold samplePhase
  cases disableLocalSampleFlag env with
  | true => exact ⟨rfl, rfl, rfl⟩
  | false => exact (wplf_fields w _ layer _).1

theorem samplePhase_files_mono (env : Env) (w : World) (df : DataFrame)
    (layer filename : String) {x : String × String × DataFrame} (hx : x ∈ w.lfs.files) :
    x ∈ (samplePhase env w df layer filename).lfs.files := by
  unfold samplePhase
  cases disableLocalSampleFlag env with
  | true => exact hx
  | false => exact wplf_files_mono w _ layer _ hx

theorem samplePhase_files_shape (env : Env) (w : World) (df : DataFrame)
    (layer filename : String) :
    ∀ x ∈ (samplePhase env w df layer filename).lfs.files,
      x ∈ w.lfs.files ∨ x.2.1 = "sample_" ++ filename := by
  unfold samplePhase
  cases disableLocalSampleFlag env with
  | true => exact fun x hx => Or.inl hx
  | false =>
    intro x hx
    simp only [Bool.false_eq_true, if_false] at hx
    unfold _write_parquet_local_fallback at hx
    dsimp only at hx
    by_cases hmem : (DATA_DIR ++ "/" ++ layer ++ "/" ++ ("sample_" ++ filename))
        ∈ w.localWriteFailPaths
    · rw [if_pos hmem] at hx
      exact Or.inl hx
    · rw [if_neg hmem] at hx
      have hx2 : x ∈ (DATA_DIR ++ "/" ++ layer, "sample_" ++ filename,
          df.limit (sampleRows env df)) :: w.lfs.files := hx
      rcases List.mem_cons.mp hx2 with h | h
      · right
        rw [h]
      · exact Or.inl h

theorem resolve_path_local (env : Env) (layer filename : String)
    (hl : layer ≠ "") (hf : filename ≠ "")
    (hb : get_storage_backend env = .ok "local") :
    resolve_path env layer filename = .ok (DATA_DIR ++ "/" ++ layer ++ "/" ++ filename) := by
  simp [resolve_path, hl, hf, hb]

theorem write_azure_ok (env : Env) (w : World) (df : DataFrame) (layer filename uri : String)
    (hcfg : is_adls_configured env = true)
    (hmod : w.azureModuleAvailable = true) (hup : w.remoteUploadOk = true)
    (hres : resolve_path env layer filename = .ok uri) :
    write_azure_data_lake env w (some df) layer filename =
      (.ok uri, { w with rfs := ⟨(adlsTargetDir env layer, filename, df) :: w.rfs.files⟩ }) := by
  unfold is_adls_configured at hcfg
  simp [write_azure_data_lake, hres, hcfg, hmod, hup]

theorem write_parquet_adls_err {env : Env} {w : World} {df : DataFrame}
    {backend layer filename : String} {e : PyErr} {w1 : World}
    (hl : layer ≠ "") (hf : filename ≠ "")
    (hb : get_storage_backend env = .ok backend)
    (hap : adlsPhase env w df backend layer filename = (.error e, w1)) :
    write_parquet env w (some df) layer filename = (.error e, w1) := by
  simp [write_parquet, hb, hap, hl, hf]

theorem adlsPhase_err (env : Env) (w : World) (df : DataFrame)
    (backend layer filename : String) (e : PyErr) (w1 : World)
    (hfb : adlsFallbackEnabled env = false)
    (hcond : (backend == "adls" || is_adls_configured env) = true)
    (hw : write_azure_data_lake env w (some df) layer filename = (.error e, w1)) :
    adlsPhase env w df backend layer filename =
      (.error (.runtimeError ("ADLS write failed (fallback disabled): " ++ e.msg)), w1) := by
  simp [adlsPhase, hcond, hw, hfb]

theorem read_parquet_latest_local (env : Env) (w : World) (layer pfx : String)
    (hl : layer ≠ "") (hp : pfx ≠ "")
    (hb : get_storage_backend env = .ok "local") :
    read_parquet_latest env w layer pfx = wrapRead (_read_latest_local w layer pfx) := by
  simp [read_parquet_latest, hl, hp, hb]

theorem read_parquet_latest_adls (env : Env) (w : World) (layer pfx : String)
    (hl : layer ≠ "") (hp : pfx ≠ "")
    (hb : get_storage_backend env = .ok "adls") :
    read_parquet_latest env w layer pfx = wrapRead (readLatestAdls env w layer pfx) := by
  simp [read_parquet_latest, hl, hp, hb]

theorem gsb_withLocal (env : Env) : get_storage_backend (withLocalBackend env) = .ok "local" := rfl

theorem write_azure_incomplete (env : Env) (w : World) (df : DataFrame)
    (layer filename : String) (hl : layer ≠ "") (hf : filename ≠ "")
    (hb : get_storage_backend env = .ok "adls")
    (hcfg : is_adls_configured env = false) :
    ∃ m, write_azure_data_lake env w (some df) layer filename = (.error (.valueError m), w) := by
  cases hac : (truthy env.adlsAccountName && truthy env.adlsContainer) with
  | false =>
    have hres : resolve_path env layer filename = .error (.valueError
        "ADLS_ACCOUNT_NAME and ADLS_CONTAINER are required for ADLS storage. Please configure ADLS credentials or switch to local storage.") := by
      simp [resolve_path, hl, hf, hb, hac]
    exact ⟨"ADLS_ACCOUNT_NAME and ADLS_CONTAINER are required for ADLS storage. Please configure ADLS credentials or switch to local storage.",
      by simp [write_azure_data_lake, hres]⟩
  | true =>
    have hres : resolve_path env layer filename = .ok ("abfss://" ++ (env.adlsContainer.getD "")
        ++ "@" ++ (env.adlsAccountName.getD "") ++ ".dfs.core.windows.net/"
        ++ _adls_base_path env ++ "/" ++ layer ++ "/" ++ filename) := by
      simp [resolve_path, hl, hf, hb, hac]
    have hkey : truthy env.adlsAccountKey = false := by
      unfold is_adls_configured at hcfg
      simp only [Bool.and_eq_true] at hac
      cases hk : truthy env.adlsAccountKey with
      | false => rfl
      | true =>
        rw [hac.1, hk, hac.2] at hcfg
        simp at hcfg
    exact ⟨"ADLS credentials not configured. Required: ADLS_ACCOUNT_NAME, ADLS_ACCOUNT_KEY, ADLS_CONTAINER",
      by simp [write_azure_data_lake, hres, hkey]⟩

/-- C9 (amended): for nonempty layer and filename, resolvePath joins the fixed
data-root with layer and filename under the local backend; under the remote
backend with credentials present it returns
abfss://container@account.dfs.core.windows.net/basePath/layer/filename where
basePath defaults to dna-platform/data, not data, when the base-path variable
is unset; and resolvePath fails with a ConfigurationError (ValueError) when
layer or filename is empty. -/
theorem c9_resolve_path (env : Env) (layer filename : String)
    (hl : layer ≠ "") (hf : filename ≠ "") :
    (get_storage_backend env = .ok "local" →
      resolve_path env layer filename = .ok (DATA_DIR ++ "/" ++ layer ++ "/" ++ filename)) ∧
    (∀ account container : String,
      get_storage_backend env = .ok "adls" →
      env.adlsAccountName = some account → account ≠ "" →
      env.adlsContainer = some container → container ≠ "" →
      env.adlsBasePath = none →
      resolve_path env layer filename = .ok ("abfss://" ++ container ++ "@" ++ account
        ++ ".dfs.core.windows.net/" ++ "dna-platform/data" ++ "/" ++ layer ++ "/" ++ filename)) ∧
    (∀ ly fn : String, ly = "" ∨ fn = "" →
      ∃ m, resolve_path env ly fn = .error (.valueError m)) := by
  refine ⟨fun hb => resolve_path_local env layer filename hl hf hb, ?_, ?_⟩
  · intro account container hb hacc hane hcont hcne hbase
    have hbasev : _adls_base_path env = "dna-platform/data" := by
      unfold _adls_base_path
      rw [hbase]
      rfl
    simp [resolve_path, hl, hf, hb, hacc, hcont, truthy, hane, hcne, hbasev]
  · intro ly fn h
    by_cases hly : ly = ""
    · exact ⟨"Layer must be a non-empty string, got: " ++ ly, by simp [resolve_path, hly]⟩
    · rcases h with h | h
      · exact absurd h hly
      · exact ⟨"Filename must be a non-empty string, got: " ++ fn,
          by simp [resolve_path, hly, h]⟩

/-- C9 counterexample: with the base-path variable unset, the default remote
base path produced by resolvePath is dna-platform/data, not the value data
stated by the spec, so the claimed uri differs from the returned one. -/
theorem c9_counterexample :
    resolve_path envAdls "bronze" "f.parquet" =
      .ok "abfss://cont@acct.dfs.core.windows.net/dna-platform/data/bronze/f.parquet" ∧
    ("abfss://cont@acct.dfs.core.windows.net/dna-platform/data/bronze/f.parquet" : String) ≠
      "abfss://cont@acct.dfs.core.windows.net/data/bronze/f.parquet" :=
  ⟨rfl, by decide⟩

/-- C9 witness: the amended theorem at concrete inputs, local join and the
failure on an empty layer. -/
theorem c9_witness :
    resolve_path envChron "bronze" "f.parquet" = .ok "data/bronze/f.parquet" ∧
    ∃ m, resolve_path envChron "" "f.parquet" = .error (.valueError m) :=
  ⟨(c9_resolve_path envChron "bronze" "f.parquet" (by decide) (by decide)).1 rfl,
   (c9_resolve_path envChron "bronze" "f.parquet" (by decide) (by decide)).2.2
      "" "f.parquet" (Or.inl rfl)⟩

/-- C8 (amended): resolveBackend raises a ConfigurationError (ValueError)
exactly when the lowercased backend value, defaulting to local when the
variable is unset or empty, is neither local nor adls; and when the remote
backend is selected with incomplete credentials and fallback disabled, the
remote-write routine raises a ConfigurationError immediately, which the write
operation surfaces wrapped as a RemoteWriteError (RuntimeError) carrying the
configuration message, leaving the world unchanged. -/
theorem c8_configuration_errors :
    (∀ env : Env,
      (∃ m, get_storage_backend env = .error (.valueError m)) ↔
        (pyLower (envOr env.storageBackend "local") ≠ "local" ∧
         pyLower (envOr env.storageBackend "local") ≠ "adls")) ∧
    (∀ (env : Env) (w : World) (df : DataFrame) (layer filename : String),
      layer ≠ "" → filename ≠ "" →
      get_storage_backend env = .ok "adls" →
      is_adls_configured env = false →
      adlsFallbackEnabled env = false →
      ∃ m, write_azure_data_lake env w (some df) layer filename = (.error (.valueError m), w) ∧
        write_parquet env w (some df) layer filename =
          (.error (.runtimeError ("ADLS write failed (fallback disabled): " ++ m)), w)) := by
  constructor
  · intro env
    constructor
    · rintro ⟨m, hm⟩
      unfold get_storage_backend at hm
      by_cases hc : pyLower (envOr env.storageBackend "local") = "local" ∨
          pyLower (envOr env.storageBackend "local") = "adls"
      · rw [if_pos hc] at hm
        exact absurd hm (by simp)
      · push_neg at hc
        exact hc
    · rintro ⟨h1, h2⟩
      refine ⟨"Unsupported STORAGE_BACKEND: " ++ pyLower (envOr env.storageBackend "local")
        ++ ". Must be local or adls", ?_⟩
      simp only [get_storage_backend]
      rw [if_neg (by tauto)]
  · intro env w df layer filename hl hf hb hcfg hfb
    obtain ⟨m, hm⟩ := write_azure_incomplete env w df layer filename hl hf hb hcfg
    refine ⟨m, hm, ?_⟩
    have hap := adlsPhase_err env w df "adls" layer filename (.valueError m) w hfb (by simp) hm
    exact write_parquet_adls_err hl hf hb hap

/-- C8 counterexample: remote backend selected, account key missing, fallback
disabled; the write operation surfaces a RuntimeError (the RemoteWriteError of
the taxonomy), not the ValueError that a directly surfaced ConfigurationError
would be. -/
theorem c8_counterexample :
    (write_parquet envAdlsNoKey cleanWorld (some dfA) "bronze" "f.parquet").1 =
      .error (.runtimeError "ADLS write failed (fallback disabled): ADLS credentials not configured. Required: ADLS_ACCOUNT_NAME, ADLS_ACCOUNT_KEY, ADLS_CONTAINER") :=
  rfl

/-- C8 witness: the amended theorem at concrete inputs. -/
theorem c8_witness :
    (∃ m, get_storage_backend ⟨some "blob", none, none, none, none, none, none, none⟩ =
      .error (.valueError m)) ∧
    ∃ m, write_azure_data_lake envAdlsNoKey cleanWorld (some dfA) "bronze" "f.parquet" =
        (.error (.valueError m), cleanWorld) ∧
      write_parquet envAdlsNoKey cleanWorld (some dfA) "bronze" "f.parquet" =
        (.error (.runtimeError ("ADLS write failed (fallback disabled): " ++ m)), cleanWorld) :=
  ⟨(c8_configuration_errors.1 ⟨some "blob", none, none, none, none, none, none, none⟩).mpr
      ⟨by decide, by decide⟩,
   c8_configuration_errors.2 envAdlsNoKey cleanWorld dfA "bronze" "f.parquet"
      (by decide) (by decide) rfl rfl rfl⟩

/-- C10: under the local read path a missing layer directory and an existing
layer directory with zero matching candidates surface the same error class,
FileNotFoundError (the NotFoundError of the spec taxonomy), both from the
private reader and at the public interface; neither case is surfaced as a
configuration error or as a wrapped I/O RuntimeError. -/
theorem c10_missing_dir_not_distinct (env : Env) (w : World) (layer pfx : String)
    (hl : layer ≠ "") (hp : pfx ≠ "")
    (hb : get_storage_backend env = .ok "local") :
    ((DATA_DIR ++ "/" ++ layer) ∉ w.lfs.dirs →
      _read_latest_local w layer pfx = .error (.fileNotFoundError
        ("Data directory does not exist: " ++ (DATA_DIR ++ "/" ++ layer))) ∧
      read_parquet_latest env w layer pfx = .error (.fileNotFoundError
        ("Data directory does not exist: " ++ (DATA_DIR ++ "/" ++ layer)))) ∧
    ((DATA_DIR ++ "/" ++ layer) ∈ w.lfs.dirs → localCandidates w layer pfx = [] →
      _read_latest_local w layer pfx = .error (.fileNotFoundError
        ("No parquet files found in " ++ (DATA_DIR ++ "/" ++ layer) ++ " with prefix " ++ pfx)) ∧
      read_parquet_latest env w layer pfx = .error (.fileNotFoundError
        ("No parquet files found in " ++ (DATA_DIR ++ "/" ++ layer) ++ " with prefix " ++ pfx))) := by
  constructor
  · intro hdir
    have hloc : _read_latest_local w layer pfx = .error (.fileNotFoundError
        ("Data directory does not exist: " ++ (DATA_DIR ++ "/" ++ layer))) := by
      simp [_read_latest_local, hdir]
    exact ⟨hloc, by rw [read_parquet_latest_local env w layer pfx hl hp hb, hloc]; rfl⟩
  · intro hdir hcand
    have hloc : _read_latest_local w layer pfx = .error (.fileNotFoundError
        ("No parquet files found in " ++ (DATA_DIR ++ "/" ++ layer) ++ " with prefix " ++ pfx)) := by
      simp [_read_latest_local, hdir, hcand]
    exact ⟨hloc, by rw [read_parquet_latest_local env w layer pfx hl hp hb, hloc]; rfl⟩

/-- C10 witness: the theorem at concrete worlds, one without the bronze
directory and one with it empty. -/
theorem c10_witness :
    read_parquet_latest envChron cleanWorld "bronze" "x_" =
      .error (.fileNotFoundError "Data directory does not exist: data/bronze") ∧
    read_parquet_latest envChron wEmptyDir "bronze" "x_" =
      .error (.fileNotFoundError "No parquet files found in data/bronze with prefix x_") :=
  ⟨((c10_missing_dir_not_distinct envChron cleanWorld "bronze" "x_" (by decide) (by decide)
      rfl).1 (by decide)).2,
   ((c10_missing_dir_not_distinct envChron wEmptyDir "bronze" "x_" (by decide) (by decide)
      rfl).2 (by decide) rfl).2⟩

/-- C7: with the remote backend selected, every transient remote failure mode
(incomplete credentials, missing client library, failed client construction,
failed listing) is never surfaced to the caller: readLatest returns exactly
what the same call under a nominal local backend returns, the silent
downgrade to the local read path. -/
theorem c7_silent_downgrade (env : Env) (w : World) (layer pfx : String)
    (hb : get_storage_backend env = .ok "adls")
    (h : is_adls_configured env = false ∨ w.azureModuleAvailable = false ∨
      w.remoteConnectOk = false ∨ w.remoteListOk = false) :
    read_parquet_latest env w layer pfx =
      read_parquet_latest (withLocalBackend env) w layer pfx := by
  by_cases hl : layer = ""
  · simp [read_parquet_latest, hl]
  · by_cases hp : pfx = ""
    · simp [read_parquet_latest, hl, hp]
    · have hdown : readLatestAdls env w layer pfx = _read_latest_local w layer pfx := by
        unfold readLatestAdls
        cases hcred : (truthy env.adlsAccountName && truthy env.adlsAccountKey &&
            truthy env.adlsContainer) with
        | false => rfl
        | true =>
          cases hmod : w.azureModuleAvailable with
          | false => rfl
          | true =>
            cases hcon : w.remoteConnectOk with
            | false => rfl
            | true =>
              cases hlist : w.remoteListOk with
              | false => rfl
              | true =>
                exfalso
                rcases h with h | h | h | h
                · unfold is_adls_configured at h
                  rw [h] at hcred
                  exact Bool.false_ne_true hcred
                · rw [h] at hmod
                  exact Bool.false_ne_true hmod
                · rw [h] at hcon
                  exact Bool.false_ne_true hcon
                · rw [h] at hlist
                  exact Bool.false_ne_true hlist
      rw [read_parquet_latest_adls env w layer pfx hl hp hb, hdown,
        ← read_parquet_latest_local (withLocalBackend env) w layer pfx hl hp (gsb_withLocal env)]

/-- C7 witness: the azure client library being unavailable downgrades the
remote read to the plain local read. -/
theorem c7_witness :
    read_parquet_latest envAdls wNoModule "bronze" "x_" =
      read_parquet_latest (withLocalBackend envAdls) wNoModule "bronze" "x_" :=
  c7_silent_downgrade envAdls wNoModule "bronze" "x_" rfl (Or.inr (Or.inl rfl))

theorem wrapRead_fnf (r : Except PyErr DataFrame) (m : String) :
    wrapRead r = .error (.fileNotFoundError m) ↔ r = .error (.fileNotFoundError m) := by
  cases r with
  | ok df => simp [wrapRead]
  | error e =>
    cases e <;> simp [wrapRead, PyErr.isFileNotFound, PyErr.isValueError, PyErr.msg]

theorem read_latest_local_fnf_iff (w : World) (layer pfx : String) :
    (∃ m, _read_latest_local w layer pfx = .error (.fileNotFoundError m)) ↔
      ((DATA_DIR ++ "/" ++ layer) ∉ w.lfs.dirs ∨ localCandidates w layer pfx = []) := by
  unfold _read_latest_local
  by_cases hdir : (DATA_DIR ++ "/" ++ layer) ∈ w.lfs.dirs
  · rw [if_pos hdir]
    cases hcand : localCandidates w layer pfx with
    | nil => simp [hdir]
    | cons c cs =>
      simp only [hdir, not_true, false_or]
      constructor
      · rintro ⟨m, hm⟩
        by_cases hrf : (DATA_DIR ++ "/" ++ layer ++ "/" ++ pyMax1 c cs) ∈ w.localReadFailPaths
        · rw [if_pos hrf] at hm
          exact absurd hm (by simp)
        · rw [if_neg hrf] at hm
          cases hfind : (localEntries w layer).find? (fun e => e.1 == pyMax1 c cs) with
          | some e =>
            rw [hfind] at hm
            exact absurd hm (by simp)
          | none =>
            rw [hfind] at hm
            exact absurd hm (by simp)
      · intro hcon
        exact absurd hcon (by simp)
  · rw [if_neg hdir]
    simp [hdir]

/-- C6 (amended): NotFoundError comes exactly from the local listing. Under
the local backend, readLatest raises FileNotFoundError iff the layer
directory is missing or the local candidate list is empty, and any
FileNotFoundError of the private reader passes through the final handler
unwrapped with its message intact; under the remote backend with a reachable
listing, an empty remote candidate list does not surface NotFoundError but
silently downgrades to the local read. -/
theorem c6_not_found (env : Env) (w : World) (layer pfx : String)
    (hl : layer ≠ "") (hp : pfx ≠ "") :
    (get_storage_backend env = .ok "local" →
      ((∃ m, read_parquet_latest env w layer pfx = .error (.fileNotFoundError m)) ↔
        ((DATA_DIR ++ "/" ++ layer) ∉ w.lfs.dirs ∨ localCandidates w layer pfx = [])) ∧
      ∀ m, _read_latest_local w layer pfx = .error (.fileNotFoundError m) →
        read_parquet_latest env w layer pfx = .error (.fileNotFoundError m)) ∧
    (get_storage_backend env = .ok "adls" →
      is_adls_configured env = true → w.azureModuleAvailable = true →
      w.remoteConnectOk = true → w.remoteListOk = true →
      adlsCandidates env w layer pfx = [] →
      read_parquet_latest env w layer pfx = wrapRead (_read_latest_local w layer pfx)) := by
  constructor
  · intro hb
    constructor
    · rw [read_parquet_latest_local env w layer pfx hl hp hb,
        ← read_latest_local_fnf_iff w layer pfx]
      constructor
      · rintro ⟨m, hm⟩
        exact ⟨m, (wrapRead_fnf _ m).mp hm⟩
      · rintro ⟨m, hm⟩
        exact ⟨m, (wrapRead_fnf _ m).mpr hm⟩
    · intro m hm
      rw [read_parquet_latest_local env w layer pfx hl hp hb, hm]
      rfl
  · intro hb hcfg hmod hcon hlist hcand
    rw [read_parquet_latest_adls env w layer pfx hl hp hb]
    unfold is_adls_configured at hcfg
    have hdown : readLatestAdls env w layer pfx = _read_latest_local w layer pfx := by
      unfold readLatestAdls
      rw [hcfg, hmod, hcon, hlist, hcand]
      rfl
    rw [hdown]

/-- C6 counterexample: remote backend with reachable listing and zero remote
candidates; readLatest succeeds from the local fallback instead of raising
the NotFoundError the claim requires for zero remote candidates. -/
theorem c6_counterexample :
    adlsCandidates envAdls wLocalX "bronze" "x_" = [] ∧
    read_parquet_latest envAdls wLocalX "bronze" "x_" = .ok dfA :=
  ⟨rfl, rfl⟩

/-- C6 witness: the amended theorem at a concrete input where the remote
listing is empty and the local directory holds the object. -/
theorem c6_witness :
    read_parquet_latest envAdls wLocalX "bronze" "x_" =
      wrapRead (_read_latest_local wLocalX "bronze" "x_") :=
  (c6_not_found envAdls wLocalX "bronze" "x_" (by decide) (by decide)).2
    rfl rfl rfl rfl rfl rfl

theorem truthy_iff (v : Option String) : truthy v = true ↔ ∃ s, v = some s ∧ s ≠ "" := by
  cases v with
  | none => simp [truthy]
  | some s => simp [truthy]

/-- C1 (amended): isRemoteConfigured is true exactly when all three
remote-credential variables are present and non-empty (partial presence is
not configured); every write attempts the remote backend first whenever the
credentials are complete, even when the nominal backend kind is local (the
uploaded object lands in the remote container and the remote attempt decides
the primary result); but readLatest consults only the nominal backend kind:
under a local nominal backend it never attempts the remote side and is
exactly the local read. -/
theorem c1_remote_preference :
    (∀ env : Env, is_adls_configured env = true ↔
      ((∃ s, env.adlsAccountName = some s ∧ s ≠ "") ∧
       (∃ s, env.adlsAccountKey = some s ∧ s ≠ "") ∧
       (∃ s, env.adlsContainer = some s ∧ s ≠ ""))) ∧
    (∀ (env : Env) (w : World) (df : DataFrame) (layer filename : String),
      layer ≠ "" → filename ≠ "" →
      get_storage_backend env = .ok "local" →
      is_adls_configured env = true →
      w.azureModuleAvailable = true → w.remoteUploadOk = true →
      (write_parquet env w (some df) layer filename).1 =
        .ok (DATA_DIR ++ "/" ++ layer ++ "/" ++ filename) ∧
      (write_parquet env w (some df) layer filename).2.rfs.files =
        (DATA_DIR ++ "/" ++ layer, filename, df) :: w.rfs.files) ∧
    (∀ (env : Env) (w : World) (layer pfx : String),
      layer ≠ "" → pfx ≠ "" →
      get_storage_backend env = .ok "local" →
      read_parquet_latest env w layer pfx = wrapRead (_read_latest_local w layer pfx)) := by
  refine ⟨?_, ?_, ?_⟩
  · intro env
    simp only [is_adls_configured, Bool.and_eq_true, truthy_iff]
    tauto
  · intro env w df layer filename hl hf hb hcfg hmod hup
    have hres := resolve_path_local env layer filename hl hf hb
    have htd : adlsTargetDir env layer = DATA_DIR ++ "/" ++ layer := by
      unfold adlsTargetDir
      rw [hb]
      rfl
    have hwadl := write_azure_ok env w df layer filename _ hcfg hmod hup hres
    rw [htd] at hwadl
    have hap : adlsPhase env w df "local" layer filename =
        (.ok (some (DATA_DIR ++ "/" ++ layer ++ "/" ++ filename)),
          { w with rfs := ⟨(DATA_DIR ++ "/" ++ layer, filename, df) :: w.rfs.files⟩ }) := by
      simp [adlsPhase, hcfg, hwadl]
    constructor
    · simp [write_parquet, hb, hl, hf, hap]
    · simp only [write_parquet, hb, hap]
      rw [if_neg (by simp [hl, hf])]
      cases hfb : adlsFallbackEnabled env with
      | false =>
        simp only [Bool.false_eq_true, if_false]
        rw [(samplePhase_fields env _ df layer filename).1]
      | true =>
        simp only [if_true]
        rw [(wplf_fields _ (some df) layer filename).1.1,
          (samplePhase_fields env _ df layer filename).1]
  · intro env w layer pfx hl hp hb
    exact read_parquet_latest_local env w layer pfx hl hp hb

/-- C1 counterexample: nominal local backend with complete remote
credentials; the remote container holds a matching object, yet readLatest
does not attempt the remote side: it reads locally and fails with
FileNotFoundError instead of returning the remote object. -/
theorem c1_counterexample :
    is_adls_configured envLocalCreds = true ∧
    adlsCandidates envLocalCreds wRemoteOnly "bronze" "x_" =
      ["dna-platform/data/bronze/x_20240101T000000Z.parquet"] ∧
    read_parquet_latest envLocalCreds wRemoteOnly "bronze" "x_" =
      .error (.fileNotFoundError "Data directory does not exist: data/bronze") :=
  ⟨rfl, rfl, rfl⟩

/-- C1 witness: a write under a nominal local backend with complete
credentials lands in the remote container and succeeds. -/
theorem c1_witness :
    (write_parquet envLocalCreds wRemoteOnly (some dfB) "silver" "y_1.parquet").1 =
      .ok "data/silver/y_1.parquet" ∧
    (write_parquet envLocalCreds wRemoteOnly (some dfB) "silver" "y_1.parquet").2.rfs.files =
      ("data/silver", "y_1.parquet", dfB) :: wRemoteOnly.rfs.files :=
  c1_remote_preference.2.1 envLocalCreds wRemoteOnly dfB "silver" "y_1.parquet"
    (by decide) (by decide) rfl rfl rfl rfl

/-- C3: when the remote write is attempted and the upload fails with fallback
disabled, write raises RemoteWriteError (a RuntimeError wrapping the original
cause) and the world is unchanged: no sample object, no mirror and no local
primary object is produced. -/
theorem c3_no_partial_state (env : Env) (w : World) (df : DataFrame)
    (backend layer filename : String) (e : PyErr)
    (hl : layer ≠ "") (hf : filename ≠ "")
    (hb : get_storage_backend env = .ok backend)
    (hcond : (backend == "adls" || is_adls_configured env) = true)
    (hfb : adlsFallbackEnabled env = false)
    (herr : (write_azure_data_lake env w (some df) layer filename).1 = .error e) :
    write_parquet env w (some df) layer filename =
      (.error (.runtimeError ("ADLS write failed (fallback disabled): " ++ e.msg)), w) := by
  have hworld := write_azure_err_world herr
  have hpair : write_azure_data_lake env w (some df) layer filename = (.error e, w) := by
    have hsplit : write_azure_data_lake env w (some df) layer filename =
        ((write_azure_data_lake env w (some df) layer filename).1,
         (write_azure_data_lake env w (some df) layer filename).2) := rfl
    rw [hsplit, herr, hworld]
  have hap := adlsPhase_err env w df backend layer filename e w hfb hcond hpair
  exact write_parquet_adls_err hl hf hb hap

/-- C3 witness: remote backend, unreachable upload, fallback disabled; the
write fails as a RemoteWriteError and the world is exactly the initial one. -/
theorem c3_witness :
    write_parquet envAdls wUploadFail (some dfA) "bronze" "f.parquet" =
      (.error (.runtimeError ("ADLS write failed (fallback disabled): " ++
        "ADLS upload failed: abfss://cont@acct.dfs.core.windows.net/dna-platform/data/bronze/f.parquet")),
       wUploadFail) :=
  c3_no_partial_state envAdls wUploadFail dfA "adls" "bronze" "f.parquet"
    (.runtimeError
      "ADLS upload failed: abfss://cont@acct.dfs.core.windows.net/dna-platform/data/bronze/f.parquet")
    (by decide) (by decide) rfl rfl rfl rfl

theorem samplePhase_mem (env : Env) (w : World) (df : DataFrame) (layer filename : String)
    (hdis : disableLocalSampleFlag env = false)
    (hnf : (DATA_DIR ++ "/" ++ layer ++ "/" ++ ("sample_" ++ filename)) ∉ w.localWriteFailPaths) :
    (DATA_DIR ++ "/" ++ layer, "sample_" ++ filename, df.limit (sampleRows env df)) ∈
      (samplePhase env w df layer filename).lfs.files := by
  unfold samplePhase
  rw [hdis]
  simp only [Bool.false_eq_true, if_false]
  unfold _write_parquet_local_fallback
  dsimp only
  rw [if_neg hnf]
  exact List.mem_cons_self _ _

/-- C4: with the sample enabled and DUAL_WRITE_SAMPLE_SIZE parsing to a
nonnegative integer k, every write that passes the remote step, whichever
backend becomes primary, writes a local sample object named sample_<filename>
whose rows are exactly the first min(k, n) rows of the table; and the sample
write never alters the returned result: with a remote primary the remote path
is returned whatever happens to the local sample. -/
theorem c4_sample_write (env : Env) (w : World) (df : DataFrame)
    (backend layer filename : String) (k : Nat) (ap : Option String) (w1 : World)
    (hl : layer ≠ "") (hf : filename ≠ "")
    (hb : get_storage_backend env = .ok backend)
    (hap : adlsPhase env w df backend layer filename = (.ok ap, w1))
    (hdis : disableLocalSampleFlag env = false)
    (hk : pyToInt (envOr env.dualWriteSampleSize "50") = some (k : Int)) :
    (df.limit (sampleRows env df)).len = min k df.len ∧
    ((DATA_DIR ++ "/" ++ layer ++ "/" ++ ("sample_" ++ filename)) ∉ w.localWriteFailPaths →
      (DATA_DIR ++ "/" ++ layer, "sample_" ++ filename, ⟨df.rows.take (min k df.len)⟩) ∈
        (write_parquet env w (some df) layer filename).2.lfs.files) ∧
    (∀ p, ap = some p → (write_parquet env w (some df) layer filename).1 = .ok p) := by
  have hsr : sampleRows env df = min k df.len := by
    unfold sampleRows
    rw [hk]
    simp
  have hlen : (df.limit (sampleRows env df)).len = min k df.len := by
    rw [hsr]
    unfold DataFrame.limit DataFrame.len
    simp [List.length_take]
  refine ⟨hlen, ?_, ?_⟩
  · intro hnf
    have hnf1 : (DATA_DIR ++ "/" ++ layer ++ "/" ++ ("sample_" ++ filename))
        ∉ w1.localWriteFailPaths := by
      have hfld := (adlsPhase_fields env w df backend layer filename).2.1
      rw [hap] at hfld
      rw [hfld]
      exact hnf
    have hmem : (DATA_DIR ++ "/" ++ layer, "sample_" ++ filename, ⟨df.rows.take (min k df.len)⟩) ∈
        (samplePhase env w1 df layer filename).lfs.files := by
      have := samplePhase_mem env w1 df layer filename hdis hnf1
      rw [hsr] at this
      exact this
    simp only [write_parquet, hb, hap]
    rw [if_neg (by simp [hl, hf])]
    cases ap with
    | some p =>
      dsimp only
      cases hfb : adlsFallbackEnabled env with
      | false => exact hmem
      | true => exact wplf_files_mono _ (some df) layer filename hmem
    | none =>
      dsimp only
      cases hwp : _write_parquet_local_fallback (samplePhase env w1 df layer filename)
          (some df) layer filename with
      | mk r w3 =>
        have h3 : w3 = (_write_parquet_local_fallback (samplePhase env w1 df layer filename)
            (some df) layer filename).2 := by rw [hwp]
        cases r with
        | ok path =>
          dsimp only
          rw [h3]
          exact wplf_files_mono _ (some df) layer filename hmem
        | error e =>
          dsimp only
          rw [h3]
          exact wplf_files_mono _ (some df) layer filename hmem
  · intro p hp
    subst hp
    simp [write_parquet, hb, hap, hl, hf]

/-- C4 witness: sample cap two on a three-row table under the local backend;
the sample object holds exactly the first two rows. -/
theorem c4_witness :
    (dfA.limit (sampleRows envSample dfA)).len = min 2 dfA.len ∧
    ("data/bronze", "sample_a_1.parquet", (⟨[[1], [2]]⟩ : DataFrame)) ∈
      (write_parquet envSample cleanWorld (some dfA) "bronze" "a_1.parquet").2.lfs.files := by
  have h := c4_sample_write envSample cleanWorld dfA "local" "bronze" "a_1.parquet" 2
    none cleanWorld (by decide) (by decide) rfl rfl rfl rfl
  exact ⟨h.1, h.2.1 (by decide)⟩

/-- C5: when the remote upload succeeds, a full local mirror of the table is
written iff fallbackToLocalOnFailure is set: with the flag set and the mirror
path writable the full mirror object appears locally; with the flag clear the
only local object the write can add is the bounded sample; and the remote
path is returned as primary in either case, so a mirror failure never changes
the result. -/
theorem c5_mirror (env : Env) (w : World) (df : DataFrame)
    (backend layer filename : String) (p : String) (w1 : World)
    (hl : layer ≠ "") (hf : filename ≠ "")
    (hb : get_storage_backend env = .ok backend)
    (hap : adlsPhase env w df backend layer filename = (.ok (some p), w1)) :
    (adlsFallbackEnabled env = true →
      (DATA_DIR ++ "/" ++ layer ++ "/" ++ filename) ∉ w.localWriteFailPaths →
      (DATA_DIR ++ "/" ++ layer, filename, df) ∈
        (write_parquet env w (some df) layer filename).2.lfs.files) ∧
    (adlsFallbackEnabled env = false →
      ∀ x ∈ (write_parquet env w (some df) layer filename).2.lfs.files,
        x ∈ w.lfs.files ∨ x.2.1 = "sample_" ++ filename) ∧
    (write_parquet env w (some df) layer filename).1 = .ok p := by
  have hfp : w1.localWriteFailPaths = w.localWriteFailPaths := by
    have hfld := (adlsPhase_fields env w df backend layer filename).2.1
    rw [hap] at hfld
    exact hfld
  have hlfs : w1.lfs = w.lfs := by
    have hfld := (adlsPhase_fields env w df backend layer filename).1
    rw [hap] at hfld
    exact hfld
  refine ⟨?_, ?_, ?_⟩
  · intro hfb hnf
    simp only [write_parquet, hb, hap]
    rw [if_neg (by simp [hl, hf])]
    dsimp only
    rw [hfb]
    simp only [if_true]
    have hnf2 : (DATA_DIR ++ "/" ++ layer ++ "/" ++ filename)
        ∉ (samplePhase env w1 df layer filename).localWriteFailPaths := by
      rw [(samplePhase_fields env w1 df layer filename).2.1, hfp]
      exact hnf
    unfold _write_parquet_local_fallback
    dsimp only
    rw [if_neg hnf2]
    exact List.mem_cons_self _ _
  · intro hfb x hx
    simp only [write_parquet, hb, hap] at hx
    rw [if_neg (by simp [hl, hf])] at hx
    dsimp only at hx
    rw [hfb] at hx
    simp only [Bool.false_eq_true, if_false] at hx
    have hshape := samplePhase_files_shape env w1 df layer filename x hx
    rw [hlfs] at hshape
    exact hshape
  · simp [write_parquet, hb, hap, hl, hf]

/-- C5 witness: remote upload succeeding with fallback enabled mirrors the
full table locally and still returns the remote uri as primary. -/
theorem c5_witness :
    ("data/bronze", "f.parquet", dfA) ∈
      (write_parquet envAdlsFb cleanWorld (some dfA) "bronze" "f.parquet").2.lfs.files ∧
    (write_parquet envAdlsFb cleanWorld (some dfA) "bronze" "f.parquet").1 =
      .ok "abfss://cont@acct.dfs.core.windows.net/dna-platform/data/bronze/f.parquet" := by
  have h := c5_mirror envAdlsFb cleanWorld dfA "adls" "bronze" "f.parquet"
    "abfss://cont@acct.dfs.core.windows.net/dna-platform/data/bronze/f.parquet"
    { cleanWorld with rfs := ⟨[("dna-platform/data/bronze", "f.parquet", dfA)]⟩ }
    (by decide) (by decide) rfl rfl
  exact ⟨h.1 rfl (by decide), h.2.2⟩

/-- C2: readLatest selects the lexicographically maximal candidate filename.
The selected value pyMax1 is a member of the candidate list and bounds every
candidate strictly from above unless equal; the local and the remote branch
each return the object stored under that maximal name; and consequently, for
any sequence of writes to the same layer and name stem whose embedded
timestamps strictly increase chronologically, readLatest returns the object
produced by the most recent write. -/
theorem c2_lex_max_latest :
    (∀ (x : String) (xs : List String), pyMax1 x xs ∈ x :: xs ∧
      ∀ y ∈ x :: xs, y = pyMax1 x xs ∨ strLt y (pyMax1 x xs) = true) ∧
    (∀ (w : World) (layer pfx c nm : String) (cs : List String) (dfm : DataFrame),
      (DATA_DIR ++ "/" ++ layer) ∈ w.lfs.dirs →
      localCandidates w layer pfx = c :: cs →
      (DATA_DIR ++ "/" ++ layer ++ "/" ++ pyMax1 c cs) ∉ w.localReadFailPaths →
      (localEntries w layer).find? (fun e => e.1 == pyMax1 c cs) = some (nm, dfm) →
      _read_latest_local w layer pfx = .ok dfm) ∧
    (∀ (env : Env) (w : World) (layer pfx c : String) (cs : List String)
        (f : String × String × DataFrame),
      is_adls_configured env = true → w.azureModuleAvailable = true →
      w.remoteConnectOk = true → w.remoteListOk = true →
      adlsCandidates env w layer pfx = c :: cs →
      w.rfs.files.find? (fun g => (g.1 ++ "/" ++ g.2.1) == pyMax1 c cs) = some f →
      readLatestAdls env w layer pfx = .ok f.2.2) ∧
    (∀ (env : Env) (w0 : World) (layer pfx : String)
        (ws : List (UtcTimestamp × DataFrame)) (tL : UtcTimestamp) (dfL : DataFrame),
      get_storage_backend env = .ok "local" → is_adls_configured env = false →
      disableLocalSampleFlag env = true →
      w0.lfs.files = [] → w0.localWriteFailPaths = [] → w0.localReadFailPaths = [] →
      layer ≠ "" → pfx ≠ "" →
      (∀ e ∈ ws ++ [(tL, dfL)], UtcTimestamp.wf e.1) →
      (ws ++ [(tL, dfL)]).Pairwise (fun a b => UtcTimestamp.chronLt a.1 b.1 = true) →
      read_parquet_latest env (runWrites env layer pfx w0 (ws ++ [(tL, dfL)])) layer pfx =
        .ok dfL) := by
  refine ⟨fun x xs => pyMax1_spec xs x, ?_, ?_, ?_⟩
  · intro w layer pfx c nm cs dfm hdir hcand hrf hfind
    simp only [_read_latest_local, hcand, hrf]
    rw [if_pos hdir]
    simp [hcand, hrf, hfind]
  · intro env w layer pfx c cs f hcfg hmod hcon hlist hcand hfind
    unfold is_adls_configured at hcfg
    unfold readLatestAdls
    rw [hcfg, hmod, hcon, hlist]
    simp [hcand, hfind]
  · intro env w0 layer pfx ws tL dfL hb hcfg hdis hfiles hwfail hrfail hl hp hwf hpw
    have hrun := runWrites_world env layer pfx hb hcfg hdis hl (ws ++ [(tL, dfL)]) w0 hwfail
    rw [hrun, read_parquet_latest_local env _ layer pfx hl hp hb]
    have hid : (((ws ++ [(tL, dfL)]).map
          (fun e => (DATA_DIR ++ "/" ++ layer, stageFilename pfx e.1, e.2))).reverse
          ++ w0.lfs.files) =
        ((tL, dfL) :: ws.reverse).map
          (fun e => (DATA_DIR ++ "/" ++ layer, stageFilename pfx e.1, e.2)) := by
      rw [hfiles, List.append_nil, List.map_append, List.reverse_append]
      simp [List.map_reverse]
    have hcross : ∀ e ∈ ws.reverse, UtcTimestamp.chronLt e.1 tL = true := by
      intro e he
      rcases List.pairwise_append.mp hpw with ⟨-, -, hc⟩
      exact hc e (List.mem_reverse.mp he) (tL, dfL) (List.mem_singleton_self _)
    have hwfL : tL.wf :=
      hwf (tL, dfL) (List.mem_append_right _ (List.mem_singleton_self _))
    have hwfl : ∀ e ∈ ws.reverse, UtcTimestamp.wf e.1 := fun e he =>
      hwf e (List.mem_append_left _ (List.mem_reverse.mp he))
    have hloc := read_latest_local_run
      { w0 with lfs := ⟨List.replicate (ws ++ [(tL, dfL)]).length (DATA_DIR ++ "/" ++ layer)
            ++ w0.lfs.dirs,
          ((ws ++ [(tL, dfL)]).map
            (fun e => (DATA_DIR ++ "/" ++ layer, stageFilename pfx e.1, e.2))).reverse
            ++ w0.lfs.files⟩ }
      layer pfx ws.reverse tL dfL hid
      (by
        have hlen : ((ws ++ [(tL, dfL)]).length) = ws.length + 1 := by simp
        simp [List.mem_append, List.mem_replicate, hlen])
      hrfail hwfL hwfl hcross
    rw [hloc]
    rfl

/-- C2 witness: two writes a day apart under the local backend; readLatest
returns the object of the second write. -/
theorem c2_witness :
    read_parquet_latest envChron
      (runWrites envChron "bronze" "x_" cleanWorld ([(ts1, dfA)] ++ [(ts2, dfB)]))
      "bronze" "x_" = .ok dfB :=
  c2_lex_max_latest.2.2.2 envChron cleanWorld "bronze" "x_" [(ts1, dfA)] ts2 dfB
    rfl rfl rfl rfl rfl rfl (by decide) (by decide) (by decide) (by decide)
